import Mathlib

/-!
Shallow embedding of `iot_mqtt_serializer_deserializer_wrapper.c` (FreeRTOS
MQTT shim): the packet-identifier generator, the status translator, the
outbound packet builder wrappers and the inbound parser wrappers.

External collaborators (the `MQTT_*` wire-format library functions and the
`IotMqtt_MallocMessage` allocator) are modelled as oracles: each wrapper takes
an environment record holding the outcome of every collaborator call it makes.
Pointers visible in caller output slots are modelled by `Ptr`; heap usage is
tracked by allocation / free counters in each wrapper's result record (the C
file contains no free call, so every `frees` field is 0 on every path).
-/

/-- `MQTTStatus_t`: the wire-format collaborator's result codes, as enumerated
by the `switch` in `convertReturnCode`. -/
inductive MQTTStatus where
  | MQTTSuccess
  | MQTTBadParameter
  | MQTTNoMemory
  | MQTTSendFailed
  | MQTTRecvFailed
  | MQTTBadResponse
  | MQTTServerRefused
  | MQTTNoDataAvailable
  | MQTTKeepAliveTimeout
  | MQTTIllegalState
  | MQTTStateCollision
  deriving DecidableEq, Repr

/-- `IotMqttError_t`: the client-facing error taxonomy (the members this file
uses). -/
inductive IotMqttError where
  | IOT_MQTT_SUCCESS
  | IOT_MQTT_BAD_PARAMETER
  | IOT_MQTT_NO_MEMORY
  | IOT_MQTT_NETWORK_ERROR
  | IOT_MQTT_BAD_RESPONSE
  | IOT_MQTT_SERVER_REFUSED
  | IOT_MQTT_TIMEOUT
  deriving DecidableEq, Repr

/-- `convertReturnCode` (lines 598-643 of the C file), embedded with C
`switch` fall-through semantics.  The `MQTTNoDataAvailable` /
`MQTTKeepAliveTimeout` arm assigns `IOT_MQTT_TIMEOUT` but has no `break`, so
control falls into the `MQTTIllegalState` / `MQTTStateCollision` arm, which
assigns `IOT_MQTT_BAD_RESPONSE` and also has no `break`, falling into
`default`, which assigns `IOT_MQTT_SUCCESS`.  Hence all four of those inputs
yield `IOT_MQTT_SUCCESS`: the earlier assignments are dead stores. -/
def convertReturnCode (mqttStatus : MQTTStatus) : IotMqttError :=
  match mqttStatus with
  | .MQTTSuccess => .IOT_MQTT_SUCCESS
  | .MQTTBadParameter => .IOT_MQTT_BAD_PARAMETER
  | .MQTTNoMemory => .IOT_MQTT_NO_MEMORY
  | .MQTTSendFailed => .IOT_MQTT_NETWORK_ERROR
  | .MQTTRecvFailed => .IOT_MQTT_NETWORK_ERROR
  | .MQTTBadResponse => .IOT_MQTT_BAD_RESPONSE
  | .MQTTServerRefused => .IOT_MQTT_SERVER_REFUSED
  | .MQTTNoDataAvailable => .IOT_MQTT_SUCCESS
  | .MQTTKeepAliveTimeout => .IOT_MQTT_SUCCESS
  | .MQTTIllegalState => .IOT_MQTT_SUCCESS
  | .MQTTStateCollision => .IOT_MQTT_SUCCESS

/-- The status translation as the specification's section 4.2 table states it
(each table row taken literally; the final row is the fallback to success).
This is the spec-side definition used to compare against `convertReturnCode`. -/
def convertReturnCodeSpec (mqttStatus : MQTTStatus) : IotMqttError :=
  match mqttStatus with
  | .MQTTSuccess => .IOT_MQTT_SUCCESS
  | .MQTTBadParameter => .IOT_MQTT_BAD_PARAMETER
  | .MQTTNoMemory => .IOT_MQTT_NO_MEMORY
  | .MQTTSendFailed => .IOT_MQTT_NETWORK_ERROR
  | .MQTTRecvFailed => .IOT_MQTT_NETWORK_ERROR
  | .MQTTBadResponse => .IOT_MQTT_BAD_RESPONSE
  | .MQTTServerRefused => .IOT_MQTT_SERVER_REFUSED
  | .MQTTNoDataAvailable => .IOT_MQTT_TIMEOUT
  | .MQTTKeepAliveTimeout => .IOT_MQTT_TIMEOUT
  | .MQTTIllegalState => .IOT_MQTT_BAD_RESPONSE
  | .MQTTStateCollision => .IOT_MQTT_BAD_RESPONSE

/-!
## Identifier generator

`_nextPacketIdentifier` (lines 61-71): a `static uint32_t` counter starting at
1 is advanced by `Atomic_Add_u32( &nextPacketIdentifier, 2 )` and the value the
counter held before the add is returned, truncated to `uint16_t`.

Modelled from the spec: `Atomic_Add_u32` lives in `iot_atomic.h`, which is not
under `src/`; per spec section 4.1 ("begin at 1 and increase by 2 on each
call", "atomic fetch-and-add semantics on a 32-bit or wider counter, truncated
to 16 bits on return") and the source comment ("Packet identifiers will follow
the sequence 1,3,5...65535,1,3,5..."), it is fetch-and-add: it adds 2 to the
32-bit counter (mod 2^32) and returns the counter's prior value.
-/

/-- One call of `_nextPacketIdentifier` on counter state `ctr`: returns the
`uint16_t` truncation of the prior counter value, and the new counter state. -/
def _nextPacketIdentifier (ctr : Nat) : Nat × Nat :=
  (ctr % 65536, (ctr + 2) % 4294967296)

/-- Counter state after `k` sequential calls; the `static` initializer is 1. -/
def idState : Nat → Nat
  | 0 => 1
  | k + 1 => (_nextPacketIdentifier (idState k)).2

/-- Value returned by the `k`-th sequential call (0-based) from the initial
state. -/
def nthId (k : Nat) : Nat := (_nextPacketIdentifier (idState k)).1

/-!
## Pointers, packet descriptors and the dual-structure translation
-/

/-- A pointer value as it appears in a caller-visible slot: `null` is C's
`NULL`; `caller v` is whatever value the caller had stored in the slot before
the call; `buf n` points at a buffer of `n` bytes allocated during the call. -/
inductive Ptr where
  | null
  | caller (v : Nat)
  | buf (size : Nat)
  deriving DecidableEq, Repr

/-- `IotMqttQos_t`. -/
inductive IotMqttQos where
  | IOT_MQTT_QOS_0
  | IOT_MQTT_QOS_1
  | IOT_MQTT_QOS_2
  deriving DecidableEq, Repr

/-- `IotMqttPublishInfo_t`: the public publish descriptor (the fields this
file reads).  String/byte regions are modelled by an abstract pointer value
plus a length, exactly as the wrapper copies them. -/
structure IotMqttPublishInfo where
  qos : IotMqttQos
  retain : Bool
  pTopicName : Nat
  topicNameLength : Nat
  pPayload : Nat
  payloadLength : Nat
  deriving DecidableEq, Repr

/-- `MQTTPublishInfo_t`: the collaborator's internal wire descriptor for a
publish (and for a will message).  `MQTTQoS_t` values correspond one-to-one to
`IotMqttQos_t` values under the C cast, so the same enumeration is reused. -/
structure MQTTPublishInfo where
  retain : Bool
  pTopicName : Nat
  topicNameLength : Nat
  pPayload : Nat
  payloadLength : Nat
  qos : IotMqttQos
  dup : Bool
  deriving DecidableEq, Repr

/-- The translate step of `_publishSerializeWrapper` (lines 328-342): field
copies plus the derived `dup` flag (`if qos == IOT_MQTT_QOS_1 then true else
false`). -/
def publishTranslate (pPublishInfo : IotMqttPublishInfo) : MQTTPublishInfo :=
  { retain := pPublishInfo.retain
    pTopicName := pPublishInfo.pTopicName
    topicNameLength := pPublishInfo.topicNameLength
    pPayload := pPublishInfo.pPayload
    payloadLength := pPublishInfo.payloadLength
    qos := pPublishInfo.qos
    dup := if pPublishInfo.qos = IotMqttQos.IOT_MQTT_QOS_1 then true else false }

/-!
## Publish builder: `_publishSerializeWrapper` (lines 311-380)
-/

/-- Outcomes of the collaborator calls made by the publish builder.
`sizeOut` / `remOut` are the values `MQTT_GetPublishPacketSize` writes through
`pPacketSize` / `remainingLength` (`none` = it left the location untouched);
`allocOk` is whether `IotMqtt_MallocMessage` returned a buffer;
`serializeStatus` is what `MQTT_SerializePublish` returns. -/
structure PublishEnv where
  sizeStatus : MQTTStatus
  sizeOut : Option Nat
  remOut : Option Nat
  allocOk : Bool
  serializeStatus : MQTTStatus
  deriving DecidableEq, Repr

/-- Observable outcome of one publish-builder call: the returned status, the
final values of the caller's three output slots, the generator counter after
the call, the internal wire descriptor built by the translate step, and how
many packet-buffer allocations / frees the call performed. -/
structure PublishResult where
  status : IotMqttError
  packetSlot : Ptr
  sizeSlot : Nat
  idSlot : Nat
  ctr : Nat
  wire : MQTTPublishInfo
  allocs : Nat
  frees : Nat
  deriving DecidableEq, Repr

/-- `_publishSerializeWrapper`: translate, size query, then (only when the
translated size-query status is success) identifier generation, allocation
with no NULL check, serialize; output slots are written only when the final
translated status is success.  No path frees the buffer. -/
def _publishSerializeWrapper (env : PublishEnv) (pPublishInfo : IotMqttPublishInfo)
    (packetSlot0 : Ptr) (sizeSlot0 : Nat) (idSlot0 : Nat) (ctr0 : Nat) : PublishResult :=
  let publishInfo := publishTranslate pPublishInfo
  let sizeSlot1 := match env.sizeOut with
    | some n => n
    | none => sizeSlot0
  let status1 := convertReturnCode env.sizeStatus
  if status1 = IotMqttError.IOT_MQTT_SUCCESS then
    let gen := _nextPacketIdentifier ctr0
    let packetId := gen.1
    let pBuffer := if env.allocOk then Ptr.buf sizeSlot1 else Ptr.null
    let status2 := convertReturnCode env.serializeStatus
    if status2 = IotMqttError.IOT_MQTT_SUCCESS then
      { status := status2, packetSlot := pBuffer, sizeSlot := sizeSlot1,
        idSlot := packetId, ctr := gen.2, wire := publishInfo, allocs := 1, frees := 0 }
    else
      { status := status2, packetSlot := packetSlot0, sizeSlot := sizeSlot1,
        idSlot := idSlot0, ctr := gen.2, wire := publishInfo, allocs := 1, frees := 0 }
  else
    { status := status1, packetSlot := packetSlot0, sizeSlot := sizeSlot1,
      idSlot := idSlot0, ctr := ctr0, wire := publishInfo, allocs := 0, frees := 0 }

/-!
## Connect builder: `_connectSerializeWrapper` (lines 76-142)
-/

/-- `IotMqttConnectInfo_t` (the fields this file reads); `pWillInfo` models
the nullable pointer to the will descriptor. -/
structure IotMqttConnectInfo where
  cleanSession : Bool
  keepAliveSeconds : Nat
  pClientIdentifier : Nat
  clientIdentifierLength : Nat
  pUserName : Nat
  userNameLength : Nat
  pPassword : Nat
  passwordLength : Nat
  pWillInfo : Option IotMqttPublishInfo
  deriving DecidableEq, Repr

/-- `MQTTConnectInfo_t`: the collaborator's internal connect descriptor. -/
structure MQTTConnectInfo where
  cleanSession : Bool
  keepAliveSeconds : Nat
  pClientIdentifier : Nat
  clientIdentifierLength : Nat
  pUserName : Nat
  userNameLength : Nat
  pPassword : Nat
  passwordLength : Nat
  deriving DecidableEq, Repr

/-- The connect translate step (lines 90-97): straight field copies. -/
def connectTranslate (pConnectInfo : IotMqttConnectInfo) : MQTTConnectInfo :=
  { cleanSession := pConnectInfo.cleanSession
    keepAliveSeconds := pConnectInfo.keepAliveSeconds
    pClientIdentifier := pConnectInfo.pClientIdentifier
    clientIdentifierLength := pConnectInfo.clientIdentifierLength
    pUserName := pConnectInfo.pUserName
    userNameLength := pConnectInfo.userNameLength
    pPassword := pConnectInfo.pPassword
    passwordLength := pConnectInfo.passwordLength }

/-- The will translate step (lines 101-109).  The source never assigns
`willInfo.dup`; `dup0` stands for the indeterminate stack value it keeps. -/
def willTranslate (will : IotMqttPublishInfo) (dup0 : Bool) : MQTTPublishInfo :=
  { retain := will.retain
    pTopicName := will.pTopicName
    topicNameLength := will.topicNameLength
    pPayload := will.pPayload
    payloadLength := will.payloadLength
    qos := will.qos
    dup := dup0 }

/-- Collaborator outcomes for the connect builder (size query, allocator,
serialize). -/
structure ConnectEnv where
  sizeStatus : MQTTStatus
  sizeOut : Option Nat
  remOut : Option Nat
  allocOk : Bool
  serializeStatus : MQTTStatus
  deriving DecidableEq, Repr

/-- Observable outcome of one connect-builder call. -/
structure ConnectResult where
  status : IotMqttError
  packetSlot : Ptr
  sizeSlot : Nat
  wireConnect : MQTTConnectInfo
  wireWill : Option MQTTPublishInfo
  allocs : Nat
  frees : Nat
  deriving DecidableEq, Repr

/-- `_connectSerializeWrapper`: translate (including the optional will), size
query, then on translated success allocation (no NULL check) and serialize;
`*pConnectPacket` is written only when the final status is success.  No path
frees the buffer. -/
def _connectSerializeWrapper (env : ConnectEnv) (pConnectInfo : IotMqttConnectInfo)
    (dup0 : Bool) (packetSlot0 : Ptr) (sizeSlot0 : Nat) : ConnectResult :=
  let connectInfo := connectTranslate pConnectInfo
  let pWillInfo := match pConnectInfo.pWillInfo with
    | some will => some (willTranslate will dup0)
    | none => none
  let sizeSlot1 := match env.sizeOut with
    | some n => n
    | none => sizeSlot0
  let status1 := convertReturnCode env.sizeStatus
  if status1 = IotMqttError.IOT_MQTT_SUCCESS then
    let pBuffer := if env.allocOk then Ptr.buf sizeSlot1 else Ptr.null
    let status2 := convertReturnCode env.serializeStatus
    if status2 = IotMqttError.IOT_MQTT_SUCCESS then
      { status := status2, packetSlot := pBuffer, sizeSlot := sizeSlot1,
        wireConnect := connectInfo, wireWill := pWillInfo, allocs := 1, frees := 0 }
    else
      { status := status2, packetSlot := packetSlot0, sizeSlot := sizeSlot1,
        wireConnect := connectInfo, wireWill := pWillInfo, allocs := 1, frees := 0 }
  else
    { status := status1, packetSlot := packetSlot0, sizeSlot := sizeSlot1,
      wireConnect := connectInfo, wireWill := pWillInfo, allocs := 0, frees := 0 }

/-!
## Disconnect and PingRequest builders (lines 147-180 and 385-419)

Both have no translate step and no identifier: size query, then on translated
success allocation (no NULL check) and serialize; the packet slot is written
only on final success.
-/

/-- Collaborator outcomes for a builder with no descriptor and no identifier
(disconnect, pingreq). -/
structure SimpleEnv where
  sizeStatus : MQTTStatus
  sizeOut : Option Nat
  allocOk : Bool
  serializeStatus : MQTTStatus
  deriving DecidableEq, Repr

/-- Observable outcome of a disconnect / pingreq builder call. -/
structure SimpleResult where
  status : IotMqttError
  packetSlot : Ptr
  sizeSlot : Nat
  allocs : Nat
  frees : Nat
  deriving DecidableEq, Repr

/-- `_disconnectSerializeWrapper` (lines 147-180). -/
def _disconnectSerializeWrapper (env : SimpleEnv) (packetSlot0 : Ptr)
    (sizeSlot0 : Nat) : SimpleResult :=
  let sizeSlot1 := match env.sizeOut with
    | some n => n
    | none => sizeSlot0
  let status1 := convertReturnCode env.sizeStatus
  if status1 = IotMqttError.IOT_MQTT_SUCCESS then
    let pBuffer := if env.allocOk then Ptr.buf sizeSlot1 else Ptr.null
    let status2 := convertReturnCode env.serializeStatus
    if status2 = IotMqttError.IOT_MQTT_SUCCESS then
      { status := status2, packetSlot := pBuffer, sizeSlot := sizeSlot1,
        allocs := 1, frees := 0 }
    else
      { status := status2, packetSlot := packetSlot0, sizeSlot := sizeSlot1,
        allocs := 1, frees := 0 }
  else
    { status := status1, packetSlot := packetSlot0, sizeSlot := sizeSlot1,
      allocs := 0, frees := 0 }

/-- `_pingreqSerializeWrapper` (lines 385-419): identical control flow to the
disconnect builder (its status variable is named `serializeStatus` in C). -/
def _pingreqSerializeWrapper (env : SimpleEnv) (packetSlot0 : Ptr)
    (sizeSlot0 : Nat) : SimpleResult :=
  let sizeSlot1 := match env.sizeOut with
    | some n => n
    | none => sizeSlot0
  let status1 := convertReturnCode env.sizeStatus
  if status1 = IotMqttError.IOT_MQTT_SUCCESS then
    let pBuffer := if env.allocOk then Ptr.buf sizeSlot1 else Ptr.null
    let status2 := convertReturnCode env.serializeStatus
    if status2 = IotMqttError.IOT_MQTT_SUCCESS then
      { status := status2, packetSlot := pBuffer, sizeSlot := sizeSlot1,
        allocs := 1, frees := 0 }
    else
      { status := status2, packetSlot := packetSlot0, sizeSlot := sizeSlot1,
        allocs := 1, frees := 0 }
  else
    { status := status1, packetSlot := packetSlot0, sizeSlot := sizeSlot1,
      allocs := 0, frees := 0 }

/-!
## Subscribe and Unsubscribe builders (lines 184-242 and 247-306)
-/

/-- `IotMqttSubscription_t` (the fields this file reads). -/
structure IotMqttSubscription where
  qos : IotMqttQos
  pTopicFilter : Nat
  topicFilterLength : Nat
  deriving DecidableEq, Repr

/-- `MQTTSubscribeInfo_t`: the collaborator's per-filter descriptor. -/
structure MQTTSubscribeInfo where
  qos : IotMqttQos
  pTopicFilter : Nat
  topicFilterLength : Nat
  deriving DecidableEq, Repr

/-- Per-element body of the copy loops at lines 198-203 and 262-267. -/
def subscriptionTranslate (s : IotMqttSubscription) : MQTTSubscribeInfo :=
  { qos := s.qos
    pTopicFilter := s.pTopicFilter
    topicFilterLength := s.topicFilterLength }

/-- Collaborator outcomes for the subscribe / unsubscribe builders.  The
scratch `subscriptionList` allocation at the top of each wrapper is modelled
as always yielding memory (the source neither checks it for NULL nor frees
it); only the packet-buffer allocation outcome is an oracle. -/
structure SubscribeEnv where
  sizeStatus : MQTTStatus
  sizeOut : Option Nat
  remOut : Option Nat
  allocOk : Bool
  serializeStatus : MQTTStatus
  deriving DecidableEq, Repr

/-- Observable outcome of one subscribe / unsubscribe builder call.
`scratchAllocs` counts the unconditional `subscriptionList` allocation;
`allocs` counts packet-buffer allocations. -/
structure SubscribeResult where
  status : IotMqttError
  packetSlot : Ptr
  sizeSlot : Nat
  idSlot : Nat
  ctr : Nat
  subList : List MQTTSubscribeInfo
  allocs : Nat
  scratchAllocs : Nat
  frees : Nat
  deriving DecidableEq, Repr

/-- `_subscribeSerializeWrapper`: scratch-list allocation and copy loop, size
query, then on translated success identifier generation, packet-buffer
allocation (no NULL check) and serialize; output slots are written only on
final success.  No path frees either allocation. -/
def _subscribeSerializeWrapper (env : SubscribeEnv)
    (pSubscriptionList : List IotMqttSubscription)
    (packetSlot0 : Ptr) (sizeSlot0 : Nat) (idSlot0 : Nat) (ctr0 : Nat) : SubscribeResult :=
  let subscriptionList := pSubscriptionList.map subscriptionTranslate
  let sizeSlot1 := match env.sizeOut with
    | some n => n
    | none => sizeSlot0
  let status1 := convertReturnCode env.sizeStatus
  if status1 = IotMqttError.IOT_MQTT_SUCCESS then
    let gen := _nextPacketIdentifier ctr0
    let packetId := gen.1
    let pBuffer := if env.allocOk then Ptr.buf sizeSlot1 else Ptr.null
    let status2 := convertReturnCode env.serializeStatus
    if status2 = IotMqttError.IOT_MQTT_SUCCESS then
      { status := status2, packetSlot := pBuffer, sizeSlot := sizeSlot1,
        idSlot := packetId, ctr := gen.2, subList := subscriptionList,
        allocs := 1, scratchAllocs := 1, frees := 0 }
    else
      { status := status2, packetSlot := packetSlot0, sizeSlot := sizeSlot1,
        idSlot := idSlot0, ctr := gen.2, subList := subscriptionList,
        allocs := 1, scratchAllocs := 1, frees := 0 }
  else
    { status := status1, packetSlot := packetSlot0, sizeSlot := sizeSlot1,
      idSlot := idSlot0, ctr := ctr0, subList := subscriptionList,
      allocs := 0, scratchAllocs := 1, frees := 0 }

/-- `_unsubscribeSerializeWrapper` (lines 247-306): identical control flow to
the subscribe builder, calling the unsubscribe collaborator operations. -/
def _unsubscribeSerializeWrapper (env : SubscribeEnv)
    (pSubscriptionList : List IotMqttSubscription)
    (packetSlot0 : Ptr) (sizeSlot0 : Nat) (idSlot0 : Nat) (ctr0 : Nat) : SubscribeResult :=
  let subscriptionList := pSubscriptionList.map subscriptionTranslate
  let sizeSlot1 := match env.sizeOut with
    | some n => n
    | none => sizeSlot0
  let status1 := convertReturnCode env.sizeStatus
  if status1 = IotMqttError.IOT_MQTT_SUCCESS then
    let gen := _nextPacketIdentifier ctr0
    let packetId := gen.1
    let pBuffer := if env.allocOk then Ptr.buf sizeSlot1 else Ptr.null
    let status2 := convertReturnCode env.serializeStatus
    if status2 = IotMqttError.IOT_MQTT_SUCCESS then
      { status := status2, packetSlot := pBuffer, sizeSlot := sizeSlot1,
        idSlot := packetId, ctr := gen.2, subList := subscriptionList,
        allocs := 1, scratchAllocs := 1, frees := 0 }
    else
      { status := status2, packetSlot := packetSlot0, sizeSlot := sizeSlot1,
        idSlot := idSlot0, ctr := gen.2, subList := subscriptionList,
        allocs := 1, scratchAllocs := 1, frees := 0 }
  else
    { status := status1, packetSlot := packetSlot0, sizeSlot := sizeSlot1,
      idSlot := idSlot0, ctr := ctr0, subList := subscriptionList,
      allocs := 0, scratchAllocs := 1, frees := 0 }

/-!
## Acknowledgment (Puback) builder: `_pubackSerializeWrapper` (lines 567-593)
-/

/-- `MQTT_PACKET_PUBACK_SIZE` (line 51). -/
def MQTT_PACKET_PUBACK_SIZE : Nat := 4

/-- Collaborator outcomes for the puback builder: the allocator and
`MQTT_SerializeAck`. -/
structure PubackEnv where
  allocOk : Bool
  serializeAckStatus : MQTTStatus
  deriving DecidableEq, Repr

/-- Observable outcome of one puback-builder call. -/
structure PubackResult where
  status : IotMqttError
  packetSlot : Ptr
  sizeSlot : Nat
  allocs : Nat
  frees : Nat
  deriving DecidableEq, Repr

/-- `_pubackSerializeWrapper`: allocates the fixed 4-byte buffer (no NULL
check), unconditionally writes `*pPacketSize = 4`, calls `MQTT_SerializeAck`
assigning its result into `status` (line 582) — and then immediately
overwrites `status` with `convertReturnCode( mqttStatus )` (line 585), where
the local `mqttStatus` still holds its initializer `MQTTSuccess`: the serialize
result is discarded and the computed status is always derived from
`MQTTSuccess`.  `packetIdentifier` is only forwarded to the collaborator. -/
def _pubackSerializeWrapper (env : PubackEnv) (packetIdentifier : Nat)
    (packetSlot0 : Ptr) (sizeSlot0 : Nat) : PubackResult :=
  let mqttStatus := MQTTStatus.MQTTSuccess
  let pBuffer := if env.allocOk then Ptr.buf MQTT_PACKET_PUBACK_SIZE else Ptr.null
  let sizeSlot1 := MQTT_PACKET_PUBACK_SIZE
  let statusFromSerialize := convertReturnCode env.serializeAckStatus
  let status := convertReturnCode mqttStatus
  if status = IotMqttError.IOT_MQTT_SUCCESS then
    { status := status, packetSlot := pBuffer, sizeSlot := sizeSlot1,
      allocs := 1, frees := 0 }
  else
    { status := status, packetSlot := packetSlot0, sizeSlot := sizeSlot1,
      allocs := 1, frees := 0 }

/-!
## Publish parser: `_deserializePublishWrapper` (lines 531-562)
-/

/-- `MQTTPacketInfo_t`: the collaborator's incoming-packet view built by the
wrap step. -/
structure MQTTPacketInfo where
  type : Nat
  pRemainingData : Nat
  remainingLength : Nat
  deriving DecidableEq, Repr

/-- `_mqttPacket_t` (the fields this file reads and writes): the received
packet descriptor, with the caller's identifier output slot and, for publish,
the nested `u.pIncomingPublish->u.publish.publishInfo` output slot. -/
structure MqttPacket where
  type : Nat
  pRemainingData : Nat
  remainingLength : Nat
  packetIdentifier : Nat
  publishInfo : IotMqttPublishInfo
  deriving DecidableEq, Repr

/-- Collaborator outcome for `MQTT_DeserializePublish`: its status, what it
writes through the identifier slot (`none` = leaves it), and the content of
the stack-local `MQTTPublishInfo_t publishInfo` after the call (the local is
declared uninitialized, so its post-call content is entirely
environment-determined). -/
structure DeserializePublishEnv where
  deserializeStatus : MQTTStatus
  idOut : Option Nat
  pubOut : MQTTPublishInfo
  deriving DecidableEq, Repr

/-- `_deserializePublishWrapper`: wraps the type / pointer / length triple,
invokes the publish decoder, translates the status, and only on translated
success copies the decoded fields into the caller's nested publish-info slot.
Returns the translated status and the updated packet descriptor. -/
def _deserializePublishWrapper (env : DeserializePublishEnv)
    (pPublish : MqttPacket) : IotMqttError × MqttPacket :=
  let pIncomingPacket : MQTTPacketInfo :=
    { type := pPublish.type
      pRemainingData := pPublish.pRemainingData
      remainingLength := pPublish.remainingLength }
  let idSlot1 := match env.idOut with
    | some v => v
    | none => pPublish.packetIdentifier
  let publishInfo := env.pubOut
  let status := convertReturnCode env.deserializeStatus
  if status = IotMqttError.IOT_MQTT_SUCCESS then
    (status,
      { pPublish with
        packetIdentifier := idSlot1
        publishInfo :=
          { qos := publishInfo.qos
            payloadLength := publishInfo.payloadLength
            pPayload := publishInfo.pPayload
            pTopicName := publishInfo.pTopicName
            topicNameLength := publishInfo.topicNameLength
            retain := publishInfo.retain } })
  else
    (status, { pPublish with packetIdentifier := idSlot1 })

/-!
## Concrete sample inputs used by witnesses and counterexamples
-/

/-- A concrete QoS-1 publish request. -/
def samplePublishInfo : IotMqttPublishInfo :=
  { qos := .IOT_MQTT_QOS_1, retain := false, pTopicName := 100,
    topicNameLength := 3, pPayload := 200, payloadLength := 2 }

/-- A concrete QoS-0 publish request. -/
def samplePublishInfoQos0 : IotMqttPublishInfo :=
  { qos := .IOT_MQTT_QOS_0, retain := true, pTopicName := 100,
    topicNameLength := 3, pPayload := 200, payloadLength := 2 }

/-- A concrete connect request with no will message. -/
def sampleConnectInfo : IotMqttConnectInfo :=
  { cleanSession := true, keepAliveSeconds := 60, pClientIdentifier := 300,
    clientIdentifierLength := 4, pUserName := 0, userNameLength := 0,
    pPassword := 0, passwordLength := 0, pWillInfo := none }

/-- A concrete single-filter subscription list. -/
def sampleSubscription : IotMqttSubscription :=
  { qos := .IOT_MQTT_QOS_1, pTopicFilter := 400, topicFilterLength := 9 }

/-- A concrete received publish packet descriptor, with caller-provided values
in the identifier and publish-info output slots. -/
def samplePacket : MqttPacket :=
  { type := 48, pRemainingData := 500, remainingLength := 9,
    packetIdentifier := 0, publishInfo := samplePublishInfoQos0 }

/-!
## Helper lemmas for the identifier generator
-/

theorem idState_closed (k : Nat) : idState k = (1 + 2 * k) % 4294967296 := by
  induction k with
  | zero => simp [idState]
  | succ k ih =>
      simp only [idState, _nextPacketIdentifier, ih]
      rw [Nat.mod_add_mod]
      ring_nf

theorem nthId_closed (k : Nat) : nthId k = (1 + 2 * k) % 65536 := by
  have hdvd : (65536 : Nat) ∣ 4294967296 := by decide
  simp only [nthId, _nextPacketIdentifier, idState_closed]
  exact Nat.mod_mod_of_dvd _ hdvd

theorem nthId_odd (k : Nat) : nthId k % 2 = 1 := by
  have hdvd : (2 : Nat) ∣ 65536 := by decide
  rw [nthId_closed, Nat.mod_mod_of_dvd _ hdvd]
  omega

/-!
## Claim theorems
-/

/-- C1: the status translator does NOT realize the section 4.2 table: because
the `MQTTNoDataAvailable` / `MQTTKeepAliveTimeout` and `MQTTIllegalState` /
`MQTTStateCollision` switch arms lack `break` statements, all four inputs fall
through to the `default` arm and translate to success, where the table demands
timeout resp. bad response.  (On every other input the code agrees with the
table.) -/
theorem convertReturnCode_fallthrough_deviates_from_table :
    convertReturnCode .MQTTNoDataAvailable = .IOT_MQTT_SUCCESS ∧
    convertReturnCode .MQTTKeepAliveTimeout = .IOT_MQTT_SUCCESS ∧
    convertReturnCode .MQTTIllegalState = .IOT_MQTT_SUCCESS ∧
    convertReturnCode .MQTTStateCollision = .IOT_MQTT_SUCCESS ∧
    convertReturnCodeSpec .MQTTNoDataAvailable = .IOT_MQTT_TIMEOUT ∧
    convertReturnCodeSpec .MQTTKeepAliveTimeout = .IOT_MQTT_TIMEOUT ∧
    convertReturnCodeSpec .MQTTIllegalState = .IOT_MQTT_BAD_RESPONSE ∧
    convertReturnCodeSpec .MQTTStateCollision = .IOT_MQTT_BAD_RESPONSE := by
  decide

/-- On the seven statuses outside the fall-through group, `convertReturnCode`
agrees with the section 4.2 table (helper fact, not tied to a single claim). -/
theorem convertReturnCode_agrees_outside_fallthrough :
    convertReturnCode .MQTTSuccess = convertReturnCodeSpec .MQTTSuccess ∧
    convertReturnCode .MQTTBadParameter = convertReturnCodeSpec .MQTTBadParameter ∧
    convertReturnCode .MQTTNoMemory = convertReturnCodeSpec .MQTTNoMemory ∧
    convertReturnCode .MQTTSendFailed = convertReturnCodeSpec .MQTTSendFailed ∧
    convertReturnCode .MQTTRecvFailed = convertReturnCodeSpec .MQTTRecvFailed ∧
    convertReturnCode .MQTTBadResponse = convertReturnCodeSpec .MQTTBadResponse ∧
    convertReturnCode .MQTTServerRefused = convertReturnCodeSpec .MQTTServerRefused := by
  decide

/-- C2: the Acknowledgment (Puback) builder's returned status is NOT the
translation of its serialize call's result: line 585 translates the stale
local `mqttStatus` (still `MQTTSuccess`), so even when `MQTT_SerializeAck`
reports `MQTTBadParameter` or `MQTTNoMemory` the builder returns success and
hands the caller the buffer. -/
theorem pubackWrapper_ignores_serialize_result :
    (_pubackSerializeWrapper ⟨true, .MQTTBadParameter⟩ 7 Ptr.null 0).status
      = .IOT_MQTT_SUCCESS ∧
    (_pubackSerializeWrapper ⟨true, .MQTTNoMemory⟩ 7 Ptr.null 0).status
      = .IOT_MQTT_SUCCESS ∧
    (_pubackSerializeWrapper ⟨true, .MQTTBadParameter⟩ 7 Ptr.null 0).packetSlot
      = Ptr.buf 4 := by
  decide

/-- C5: called sequentially from its initial state, the identifier generator
returns `(1 + 2k) mod 2^16` on the `k`-th call — i.e. the odd values
1, 3, 5, …, 65535 in order, wrapping back through the same sequence with
period 32768 — and never returns 0 and never repeats a value before
wraparound. -/
theorem nextPacketIdentifier_odd_sequence :
    (∀ k, nthId k = (1 + 2 * k) % 65536) ∧
    (∀ k, k < 32768 → nthId k = 1 + 2 * k) ∧
    (∀ k, nthId k ≠ 0) ∧
    (∀ k, nthId (k + 32768) = nthId k) ∧
    (∀ i j, i < j → j < i + 32768 → nthId i ≠ nthId j) := by
  refine ⟨nthId_closed, ?_, ?_, ?_, ?_⟩
  · intro k hk
    rw [nthId_closed]
    exact Nat.mod_eq_of_lt (by omega)
  · intro k h0
    have := nthId_odd k
    omega
  · intro k
    rw [nthId_closed, nthId_closed]
    have h : 1 + 2 * (k + 32768) = (1 + 2 * k) + 1 * 65536 := by ring
    rw [h, Nat.add_mul_mod_self_right]
  · intro i j hij hlt heq
    rw [nthId_closed, nthId_closed] at heq
    have h1 : Nat.ModEq 65536 (1 + 2 * i) (1 + 2 * j) := heq
    have h2 : (65536 : Nat) ∣ (1 + 2 * j) - (1 + 2 * i) :=
      (Nat.modEq_iff_dvd' (by omega)).mp h1
    obtain ⟨q, hq⟩ := h2
    omega

/-- Witness for C5: concrete instances of the sequence law, the
window-injectivity and the period, obtained from the claim theorem. -/
theorem nextPacketIdentifier_odd_sequence_check :
    nthId 5 = 1 + 2 * 5 ∧ nthId 0 ≠ nthId 1 :=
  ⟨nextPacketIdentifier_odd_sequence.2.1 5 (by decide),
   nextPacketIdentifier_odd_sequence.2.2.2.2 0 1 (by decide) (by decide)⟩

/-- C6: in the Publish builder, the `dup` flag of the internal wire descriptor
is derived from the request's QoS: true exactly when QoS is at-least-once
(QoS 1), false for every other QoS value, regardless of everything else in the
request and of the collaborator outcomes. -/
theorem publish_dup_flag_derived_from_qos :
    ∀ (env : PublishEnv) (p : IotMqttPublishInfo) (pk0 : Ptr) (s0 i0 c0 : Nat),
      ((_publishSerializeWrapper env p pk0 s0 i0 c0).wire.dup = true ↔
        p.qos = IotMqttQos.IOT_MQTT_QOS_1) := by
  intro env p pk0 s0 i0 c0
  have hwire : (_publishSerializeWrapper env p pk0 s0 i0 c0).wire = publishTranslate p := by
    simp only [_publishSerializeWrapper]
    split
    · split <;> rfl
    · rfl
  rw [hwire]
  rcases p with ⟨qos, r, tn, tl, pp, pl⟩
  cases qos <;> simp [publishTranslate]

/-- Witness for C6: a concrete QoS-1 publish build sets the wire `dup` flag. -/
theorem publish_dup_flag_derived_from_qos_check :
    (_publishSerializeWrapper ⟨.MQTTSuccess, some 10, some 5, true, .MQTTSuccess⟩
        samplePublishInfo Ptr.null 0 0 1).wire.dup = true :=
  (publish_dup_flag_derived_from_qos ⟨.MQTTSuccess, some 10, some 5, true, .MQTTSuccess⟩
    samplePublishInfo Ptr.null 0 0 1).mpr rfl

/-- C3: failure after allocation does NOT release the allocated buffer.  A
publish build whose size query reports size 10 and whose serialize call fails
with `MQTTBadParameter` returns a non-success status having performed one
packet-buffer allocation and zero frees (the C file contains no free call);
likewise for a connect build. -/
theorem serialize_failure_leaks_allocated_buffer :
    ((_publishSerializeWrapper ⟨.MQTTSuccess, some 10, some 5, true, .MQTTBadParameter⟩
        samplePublishInfo Ptr.null 0 0 1).status = .IOT_MQTT_BAD_PARAMETER ∧
      (_publishSerializeWrapper ⟨.MQTTSuccess, some 10, some 5, true, .MQTTBadParameter⟩
        samplePublishInfo Ptr.null 0 0 1).allocs = 1 ∧
      (_publishSerializeWrapper ⟨.MQTTSuccess, some 10, some 5, true, .MQTTBadParameter⟩
        samplePublishInfo Ptr.null 0 0 1).frees = 0) ∧
    ((_connectSerializeWrapper ⟨.MQTTSuccess, some 12, some 10, true, .MQTTBadParameter⟩
        sampleConnectInfo false Ptr.null 0).status = .IOT_MQTT_BAD_PARAMETER ∧
      (_connectSerializeWrapper ⟨.MQTTSuccess, some 12, some 10, true, .MQTTBadParameter⟩
        sampleConnectInfo false Ptr.null 0).allocs = 1 ∧
      (_connectSerializeWrapper ⟨.MQTTSuccess, some 12, some 10, true, .MQTTBadParameter⟩
        sampleConnectInfo false Ptr.null 0).frees = 0) := by
  decide

/-- C4: a failing size query does NOT always short-circuit.  When
`MQTT_GetPublishPacketSize` fails with `MQTTNoDataAvailable` (leaving the size
slot untouched), the broken translator maps the failure to success, so the
publish builder consumes a packet identifier (counter 1 becomes 3), allocates
a packet buffer (of the stale slot size), and can even return overall success;
the subscribe builder behaves the same way.  (For a failure the translator
does map to non-success, e.g. `MQTTBadParameter`, the short-circuit works:
no identifier is consumed and no packet buffer is allocated.) -/
theorem sizeQuery_failure_consumes_identifier_and_allocates :
    ((_publishSerializeWrapper ⟨.MQTTNoDataAvailable, none, none, true, .MQTTSuccess⟩
        samplePublishInfo Ptr.null 0 0 1).ctr = 3 ∧
      (_publishSerializeWrapper ⟨.MQTTNoDataAvailable, none, none, true, .MQTTSuccess⟩
        samplePublishInfo Ptr.null 0 0 1).allocs = 1 ∧
      (_publishSerializeWrapper ⟨.MQTTNoDataAvailable, none, none, true, .MQTTSuccess⟩
        samplePublishInfo Ptr.null 0 0 1).status = .IOT_MQTT_SUCCESS) ∧
    ((_subscribeSerializeWrapper ⟨.MQTTNoDataAvailable, none, none, true, .MQTTSuccess⟩
        [sampleSubscription] Ptr.null 0 0 1).ctr = 3 ∧
      (_subscribeSerializeWrapper ⟨.MQTTNoDataAvailable, none, none, true, .MQTTSuccess⟩
        [sampleSubscription] Ptr.null 0 0 1).allocs = 1) ∧
    ((_publishSerializeWrapper ⟨.MQTTBadParameter, none, none, true, .MQTTSuccess⟩
        samplePublishInfo Ptr.null 0 0 1).ctr = 1 ∧
      (_publishSerializeWrapper ⟨.MQTTBadParameter, none, none, true, .MQTTSuccess⟩
        samplePublishInfo Ptr.null 0 0 1).allocs = 0 ∧
      (_publishSerializeWrapper ⟨.MQTTBadParameter, none, none, true, .MQTTSuccess⟩
        samplePublishInfo Ptr.null 0 0 1).status = .IOT_MQTT_BAD_PARAMETER) := by
  decide

/-- C9: allocation failure is NOT surfaced as the distinct no-memory status.
The publish builder performs no NULL check on the allocator's result: with a
failed allocation it proceeds to serialize, and returns whatever that
translates to — success (handing the caller a NULL packet pointer) when the
collaborator reports success, bad parameter when the collaborator rejects the
NULL buffer; never `IOT_MQTT_NO_MEMORY` of its own accord. -/
theorem alloc_failure_not_surfaced_as_no_memory :
    ((_publishSerializeWrapper ⟨.MQTTSuccess, some 10, some 5, false, .MQTTSuccess⟩
        samplePublishInfo Ptr.null 0 0 1).status = .IOT_MQTT_SUCCESS ∧
      (_publishSerializeWrapper ⟨.MQTTSuccess, some 10, some 5, false, .MQTTSuccess⟩
        samplePublishInfo Ptr.null 0 0 1).packetSlot = Ptr.null) ∧
    (_publishSerializeWrapper ⟨.MQTTSuccess, some 10, some 5, false, .MQTTBadParameter⟩
        samplePublishInfo Ptr.null 0 0 1).status = .IOT_MQTT_BAD_PARAMETER := by
  decide

/-- C7: for every builder call that returns success — provided the size query
itself succeeded (and so reported the packet size through the caller's size
slot) and the allocator yielded a buffer — the buffer handed to the caller has
length exactly the size the size-query step reported; for the Acknowledgment
builder the "reported" size is the fixed constant 4.  One conjunct per
builder. -/
theorem builder_success_buffer_matches_queried_size :
    (∀ (env : PublishEnv) p pk0 s0 i0 c0 n, env.sizeStatus = .MQTTSuccess →
      env.sizeOut = some n → env.allocOk = true →
      (_publishSerializeWrapper env p pk0 s0 i0 c0).status = .IOT_MQTT_SUCCESS →
      (_publishSerializeWrapper env p pk0 s0 i0 c0).packetSlot = Ptr.buf n ∧
      (_publishSerializeWrapper env p pk0 s0 i0 c0).sizeSlot = n) ∧
    (∀ (env : ConnectEnv) p d0 pk0 s0 n, env.sizeStatus = .MQTTSuccess →
      env.sizeOut = some n → env.allocOk = true →
      (_connectSerializeWrapper env p d0 pk0 s0).status = .IOT_MQTT_SUCCESS →
      (_connectSerializeWrapper env p d0 pk0 s0).packetSlot = Ptr.buf n ∧
      (_connectSerializeWrapper env p d0 pk0 s0).sizeSlot = n) ∧
    (∀ (env : SimpleEnv) pk0 s0 n, env.sizeStatus = .MQTTSuccess →
      env.sizeOut = some n → env.allocOk = true →
      (_disconnectSerializeWrapper env pk0 s0).status = .IOT_MQTT_SUCCESS →
      (_disconnectSerializeWrapper env pk0 s0).packetSlot = Ptr.buf n ∧
      (_disconnectSerializeWrapper env pk0 s0).sizeSlot = n) ∧
    (∀ (env : SimpleEnv) pk0 s0 n, env.sizeStatus = .MQTTSuccess →
      env.sizeOut = some n → env.allocOk = true →
      (_pingreqSerializeWrapper env pk0 s0).status = .IOT_MQTT_SUCCESS →
      (_pingreqSerializeWrapper env pk0 s0).packetSlot = Ptr.buf n ∧
      (_pingreqSerializeWrapper env pk0 s0).sizeSlot = n) ∧
    (∀ (env : SubscribeEnv) l pk0 s0 i0 c0 n, env.sizeStatus = .MQTTSuccess →
      env.sizeOut = some n → env.allocOk = true →
      (_subscribeSerializeWrapper env l pk0 s0 i0 c0).status = .IOT_MQTT_SUCCESS →
      (_subscribeSerializeWrapper env l pk0 s0 i0 c0).packetSlot = Ptr.buf n ∧
      (_subscribeSerializeWrapper env l pk0 s0 i0 c0).sizeSlot = n) ∧
    (∀ (env : SubscribeEnv) l pk0 s0 i0 c0 n, env.sizeStatus = .MQTTSuccess →
      env.sizeOut = some n → env.allocOk = true →
      (_unsubscribeSerializeWrapper env l pk0 s0 i0 c0).status = .IOT_MQTT_SUCCESS →
      (_unsubscribeSerializeWrapper env l pk0 s0 i0 c0).packetSlot = Ptr.buf n ∧
      (_unsubscribeSerializeWrapper env l pk0 s0 i0 c0).sizeSlot = n) ∧
    (∀ (env : PubackEnv) pid pk0 s0, env.allocOk = true →
      (_pubackSerializeWrapper env pid pk0 s0).status = .IOT_MQTT_SUCCESS →
      (_pubackSerializeWrapper env pid pk0 s0).packetSlot = Ptr.buf 4 ∧
      (_pubackSerializeWrapper env pid pk0 s0).sizeSlot = 4) := by
  refine ⟨?_, ?_, ?_, ?_, ?_, ?_, ?_⟩
  · intro env p pk0 s0 i0 c0 n h1 h2 h3 h4
    cases hz : env.serializeStatus <;>
      simp_all [_publishSerializeWrapper, convertReturnCode]
  · intro env p d0 pk0 s0 n h1 h2 h3 h4
    cases hz : env.serializeStatus <;>
      simp_all [_connectSerializeWrapper, convertReturnCode]
  · intro env pk0 s0 n h1 h2 h3 h4
    cases hz : env.serializeStatus <;>
      simp_all [_disconnectSerializeWrapper, convertReturnCode]
  · intro env pk0 s0 n h1 h2 h3 h4
    cases hz : env.serializeStatus <;>
      simp_all [_pingreqSerializeWrapper, convertReturnCode]
  · intro env l pk0 s0 i0 c0 n h1 h2 h3 h4
    cases hz : env.serializeStatus <;>
      simp_all [_subscribeSerializeWrapper, convertReturnCode]
  · intro env l pk0 s0 i0 c0 n h1 h2 h3 h4
    cases hz : env.serializeStatus <;>
      simp_all [_unsubscribeSerializeWrapper, convertReturnCode]
  · intro env pid pk0 s0 h3 h4
    simp_all [_pubackSerializeWrapper, convertReturnCode, MQTT_PACKET_PUBACK_SIZE]

/-- Witness for C7: a concrete all-success publish build hands a buffer of the
queried size 10 and reports size 10. -/
theorem builder_success_buffer_matches_queried_size_check :
    (_publishSerializeWrapper ⟨.MQTTSuccess, some 10, some 5, true, .MQTTSuccess⟩
        samplePublishInfo Ptr.null 0 0 1).packetSlot = Ptr.buf 10 ∧
    (_publishSerializeWrapper ⟨.MQTTSuccess, some 10, some 5, true, .MQTTSuccess⟩
        samplePublishInfo Ptr.null 0 0 1).sizeSlot = 10 :=
  builder_success_buffer_matches_queried_size.1
    ⟨.MQTTSuccess, some 10, some 5, true, .MQTTSuccess⟩
    samplePublishInfo Ptr.null 0 0 1 10 rfl rfl rfl (by decide)

/-- C10: whenever the publish size query succeeds, the builder consumes
exactly one identifier from the generator (the counter advances by exactly one
step, `(c0 + 2) mod 2^32`), independent of the request's QoS — including
QoS 0 — and on overall success it returns that identifier (the prior counter
value truncated to 16 bits) through the caller's identifier slot. -/
theorem publish_build_consumes_one_identifier :
    ∀ (env : PublishEnv) p pk0 s0 i0 c0, env.sizeStatus = .MQTTSuccess →
      (_publishSerializeWrapper env p pk0 s0 i0 c0).ctr = (c0 + 2) % 4294967296 ∧
      ((_publishSerializeWrapper env p pk0 s0 i0 c0).status = .IOT_MQTT_SUCCESS →
        (_publishSerializeWrapper env p pk0 s0 i0 c0).idSlot = c0 % 65536) := by
  intro env p pk0 s0 i0 c0 h1
  cases hz : env.serializeStatus <;>
    simp_all [_publishSerializeWrapper, _nextPacketIdentifier, convertReturnCode]

/-- Witness for C10: a concrete QoS-0 publish build with a successful size
query advances the counter from 1 to 3 and hands out identifier 1. -/
theorem publish_build_consumes_one_identifier_check :
    (_publishSerializeWrapper ⟨.MQTTSuccess, some 10, some 5, true, .MQTTSuccess⟩
        samplePublishInfoQos0 Ptr.null 0 0 1).ctr = 3 ∧
    (_publishSerializeWrapper ⟨.MQTTSuccess, some 10, some 5, true, .MQTTSuccess⟩
        samplePublishInfoQos0 Ptr.null 0 0 1).idSlot = 1 :=
  ⟨(publish_build_consumes_one_identifier
      ⟨.MQTTSuccess, some 10, some 5, true, .MQTTSuccess⟩
      samplePublishInfoQos0 Ptr.null 0 0 1 rfl).1,
   (publish_build_consumes_one_identifier
      ⟨.MQTTSuccess, some 10, some 5, true, .MQTTSuccess⟩
      samplePublishInfoQos0 Ptr.null 0 0 1 rfl).2 (by decide)⟩

/-- Counterexample to C8 as stated: a non-success publish build CAN leave a
caller-provided output slot modified.  The caller passes 0 in the packet-size
slot; the size query succeeds and writes 10 through that slot; the serialize
step then fails, the call returns bad parameter — and the slot holds 10, not
the caller's 0. -/
theorem builder_failure_overwrites_size_slot :
    (_publishSerializeWrapper ⟨.MQTTSuccess, some 10, some 5, true, .MQTTBadParameter⟩
        samplePublishInfo (Ptr.caller 3) 0 9 1).status = .IOT_MQTT_BAD_PARAMETER ∧
    (_publishSerializeWrapper ⟨.MQTTSuccess, some 10, some 5, true, .MQTTBadParameter⟩
        samplePublishInfo (Ptr.caller 3) 0 9 1).sizeSlot = 10 ∧
    (_publishSerializeWrapper ⟨.MQTTSuccess, some 10, some 5, true, .MQTTBadParameter⟩
        samplePublishInfo (Ptr.caller 3) 0 9 1).sizeSlot ≠ 0 := by
  decide

/-- C8 (amended): on any non-success return, each builder leaves the
buffer-pointer and identifier output slots exactly as the caller provided
them, and the publish parser leaves the caller's nested publish-info fields
exactly as provided; the slots handed directly to a collaborator are the
exception — the builder's packet-size slot holds whatever the size query wrote
(see the counterexample), and the parser's identifier slot holds whatever the
decode collaborator wrote (last conjunct: it equals the collaborator-written
value, or the caller's value when the collaborator left it alone). -/
theorem builder_failure_frame :
    (∀ (env : PublishEnv) p pk0 s0 i0 c0,
      (_publishSerializeWrapper env p pk0 s0 i0 c0).status ≠ .IOT_MQTT_SUCCESS →
      (_publishSerializeWrapper env p pk0 s0 i0 c0).packetSlot = pk0 ∧
      (_publishSerializeWrapper env p pk0 s0 i0 c0).idSlot = i0) ∧
    (∀ (env : SubscribeEnv) l pk0 s0 i0 c0,
      (_subscribeSerializeWrapper env l pk0 s0 i0 c0).status ≠ .IOT_MQTT_SUCCESS →
      (_subscribeSerializeWrapper env l pk0 s0 i0 c0).packetSlot = pk0 ∧
      (_subscribeSerializeWrapper env l pk0 s0 i0 c0).idSlot = i0) ∧
    (∀ (env : SubscribeEnv) l pk0 s0 i0 c0,
      (_unsubscribeSerializeWrapper env l pk0 s0 i0 c0).status ≠ .IOT_MQTT_SUCCESS →
      (_unsubscribeSerializeWrapper env l pk0 s0 i0 c0).packetSlot = pk0 ∧
      (_unsubscribeSerializeWrapper env l pk0 s0 i0 c0).idSlot = i0) ∧
    (∀ (env : ConnectEnv) p d0 pk0 s0,
      (_connectSerializeWrapper env p d0 pk0 s0).status ≠ .IOT_MQTT_SUCCESS →
      (_connectSerializeWrapper env p d0 pk0 s0).packetSlot = pk0) ∧
    (∀ (env : SimpleEnv) pk0 s0,
      (_disconnectSerializeWrapper env pk0 s0).status ≠ .IOT_MQTT_SUCCESS →
      (_disconnectSerializeWrapper env pk0 s0).packetSlot = pk0) ∧
    (∀ (env : SimpleEnv) pk0 s0,
      (_pingreqSerializeWrapper env pk0 s0).status ≠ .IOT_MQTT_SUCCESS →
      (_pingreqSerializeWrapper env pk0 s0).packetSlot = pk0) ∧
    (∀ (env : DeserializePublishEnv) pkt,
      (_deserializePublishWrapper env pkt).1 ≠ .IOT_MQTT_SUCCESS →
      (_deserializePublishWrapper env pkt).2.publishInfo = pkt.publishInfo) ∧
    (∀ (env : DeserializePublishEnv) pkt,
      (_deserializePublishWrapper env pkt).2.packetIdentifier =
        (match env.idOut with
          | some v => v
          | none => pkt.packetIdentifier)) := by
  refine ⟨?_, ?_, ?_, ?_, ?_, ?_, ?_, ?_⟩
  · intro env p pk0 s0 i0 c0 h
    cases h1 : env.sizeStatus <;> cases hz : env.serializeStatus <;>
      simp_all [_publishSerializeWrapper, convertReturnCode]
  · intro env l pk0 s0 i0 c0 h
    cases h1 : env.sizeStatus <;> cases hz : env.serializeStatus <;>
      simp_all [_subscribeSerializeWrapper, convertReturnCode]
  · intro env l pk0 s0 i0 c0 h
    cases h1 : env.sizeStatus <;> cases hz : env.serializeStatus <;>
      simp_all [_unsubscribeSerializeWrapper, convertReturnCode]
  · intro env p d0 pk0 s0 h
    cases h1 : env.sizeStatus <;> cases hz : env.serializeStatus <;>
      simp_all [_connectSerializeWrapper, convertReturnCode]
  · intro env pk0 s0 h
    cases h1 : env.sizeStatus <;> cases hz : env.serializeStatus <;>
      simp_all [_disconnectSerializeWrapper, convertReturnCode]
  · intro env pk0 s0 h
    cases h1 : env.sizeStatus <;> cases hz : env.serializeStatus <;>
      simp_all [_pingreqSerializeWrapper, convertReturnCode]
  · intro env pkt h
    cases hd : env.deserializeStatus <;>
      simp_all [_deserializePublishWrapper, convertReturnCode]
  · intro env pkt
    cases ho : env.idOut <;> cases hd : env.deserializeStatus <;>
      simp_all [_deserializePublishWrapper, convertReturnCode]

/-- Witness for the amended C8: a concrete failed publish build leaves the
caller's buffer-pointer and identifier slots untouched. -/
theorem builder_failure_frame_check :
    (_publishSerializeWrapper ⟨.MQTTSuccess, some 10, some 5, true, .MQTTBadParameter⟩
        samplePublishInfo (Ptr.caller 3) 0 9 1).packetSlot = Ptr.caller 3 ∧
    (_publishSerializeWrapper ⟨.MQTTSuccess, some 10, some 5, true, .MQTTBadParameter⟩
        samplePublishInfo (Ptr.caller 3) 0 9 1).idSlot = 9 :=
  builder_failure_frame.1 ⟨.MQTTSuccess, some 10, some 5, true, .MQTTBadParameter⟩
    samplePublishInfo (Ptr.caller 3) 0 9 1 (by decide)
